import Mathlib

/-!
Verification of the BedFlow hospital-capacity dashboard core
(`jbi100_app/data.py`, `jbi100_app/main.py`, `jbi100_app/views/menu.py`,
`jbi100_app/views/panels.py`).

The development shallowly embeds, in Lean, the pieces of the code the
claims depend on:

* the column resolver `_pick_col` (two passes: case-insensitive exact
  lookup against a lower-cased dictionary of the columns, then a
  case-insensitive substring scan);
* the per-row derived-metric formulas of `load_hospitalbeds`
  (`replace(0, NaN)` followed by division and `fillna(0.0)`);
* the `pd.cut` binning used for `demand_level`;
* the staff-availability derivation (filter on coerced `present == 1`,
  group-by size per `(week, service)`, left join, `fillna(0)`);
* the pivot-table aggregation used by the heatmap builders;
* the Dash `global-state` store and its callbacks, with click payloads
  modelled as JSON-like values and Python subscript / `int()` semantics
  made explicit, including which exception classes the handler catches.

Numbers appearing in tables are modelled as rationals, with `Option`
encoding pandas missing values (NaN).
-/

/-- A JSON-like dynamic value, as stored in a Dash `dcc.Store` and as
delivered in Plotly click payloads.  `null` plays the role of Python's
`None`. -/
inductive Value where
  | null : Value
  | int (n : Int) : Value
  | str (s : String) : Value
  | list (items : List Value) : Value
  | dict (entries : List (String × Value)) : Value

/-- The Python exception classes relevant to `update_selection`:
the handler's `except (KeyError, IndexError, TypeError)` tuple plus
`ValueError`, which `int()` can raise on a malformed string. -/
inductive PyErr where
  | keyError : PyErr
  | indexError : PyErr
  | typeError : PyErr
  | valueError : PyErr
deriving DecidableEq

/-- Whether an exception is absorbed by the
`except (KeyError, IndexError, TypeError)` clause of `update_selection`. -/
def PyErr.caught : PyErr → Bool
  | .keyError => true
  | .indexError => true
  | .typeError => true
  | .valueError => false

/-- Python truthiness of a JSON-like value (`if click_data:` etc.). -/
def Value.truthy : Value → Bool
  | .null => false
  | .int n => n != 0
  | .str s => s != ""
  | .list l => !l.isEmpty
  | .dict d => !d.isEmpty

/-- Python equality `==` on JSON-like values (structural; values of
different shapes compare unequal, and `None` is equal only to `None`). -/
def Value.pyEq : Value → Value → Bool
  | .null, .null => true
  | .int a, .int b => a == b
  | .str a, .str b => a == b
  | .list a, .list b => pyEqList a b
  | .dict a, .dict b => pyEqEntries a b
  | _, _ => false
where
  pyEqList : List Value → List Value → Bool
    | [], [] => true
    | a :: as, b :: bs => pyEq a b && pyEqList as bs
    | _, _ => false
  pyEqEntries : List (String × Value) → List (String × Value) → Bool
    | [], [] => true
    | (k1, v1) :: as, (k2, v2) :: bs => k1 == k2 && pyEq v1 v2 && pyEqEntries as bs
    | _, _ => false

/-- Python subscripting `obj["key"]` with a string key: a dictionary
yields the entry or `KeyError`; everything else is a `TypeError`
(lists and strings reject string indices, scalars are not
subscriptable). -/
def Value.getItem : Value → String → Except PyErr Value
  | .dict entries, key =>
      match entries.find? (fun e => e.1 == key) with
      | some e => .ok e.2
      | none => .error .keyError
  | _, _ => .error .typeError

/-- Python subscripting `obj[0]`: first element of a list (or
`IndexError` when empty), first character of a string, `KeyError` on a
string-keyed dictionary, `TypeError` on scalars. -/
def Value.index0 : Value → Except PyErr Value
  | .list [] => .error .indexError
  | .list (a :: _) => .ok a
  | .str s => if s = "" then .error .indexError else .ok (.str (s.take 1))
  | .dict _ => .error .keyError
  | _ => .error .typeError

/-- The numeric value of a decimal digit character. -/
def chDigit? (c : Char) : Option Nat :=
  if '0' ≤ c ∧ c ≤ '9' then some (c.toNat - '0'.toNat) else none

/-- Accumulates the value of a digit run; `none` as the accumulator
means no digit has been seen yet, so an empty run fails. -/
def digitsVal : List Char → Option Nat → Option Nat
  | [], acc => acc
  | c :: cs, acc =>
      match chDigit? c, acc with
      | some d, some a => digitsVal cs (some (a * 10 + d))
      | some d, none => digitsVal cs (some d)
      | none, _ => none

/-- Python `int(...)` applied to a string: an optional sign followed by
at least one decimal digit, anything else a failure. -/
def strToIntPy (s : String) : Option Int :=
  match s.data with
  | '-' :: rest => (digitsVal rest none).map (fun n => -(n : Int))
  | '+' :: rest => (digitsVal rest none).map (fun n => (n : Int))
  | l => (digitsVal l none).map (fun n => (n : Int))

/-- Python `int(v)`: the identity on integers, string parsing
(`ValueError` on a non-numeric string), `TypeError` on `None`, lists
and dictionaries. -/
def Value.pyInt : Value → Except PyErr Int
  | .int n => .ok n
  | .str s =>
      match strToIntPy s with
      | some n => .ok n
      | none => .error .valueError
  | _ => .error .typeError

/-! ## Schema resolver (`_pick_col` in `jbi100_app/data.py`) -/

/-- Whether `needle` occurs as a contiguous sublist of `hay`
(the semantics of Python's `in` on strings, at character-list level). -/
def charsHavePre : List Char → List Char → Bool
  | [], _ => true
  | _ :: _, [] => false
  | a :: as, b :: bs => a == b && charsHavePre as bs

/-- Substring occurrence at any position. -/
def charsHaveSub (needle : List Char) : List Char → Bool
  | [] => charsHavePre needle []
  | b :: bs => charsHavePre needle (b :: bs) || charsHaveSub needle bs

/-- Python `needle in hay` for strings. -/
def strHasSub (needle hay : String) : Bool :=
  charsHaveSub needle.data hay.data

/-- Python `s.lower()` (ASCII lowering, which covers the column names
in play). -/
def strLower (s : String) : String := String.mk (s.data.map Char.toLower)

/-- The dictionary `{c.lower(): c for c in df.columns}` looked up at
`key`: the comprehension overwrites on duplicate lower-cased names, so
the LAST column with that lower-casing wins. -/
def lowerLookup (columns : List String) (key : String) : Option String :=
  (columns.filter (fun c => strLower c == key)).getLast?

/-- Pass 1 of `_pick_col`: for each candidate in order, a
case-insensitive exact lookup; first hit wins. -/
def exactPass (columns candidates : List String) : Option String :=
  candidates.findSome? (fun cand => lowerLookup columns (strLower cand))

/-- Pass 2 of `_pick_col`: for each candidate in order, scan the real
columns in order and return the first whose lower-cased name contains
the lower-cased candidate as a substring. -/
def subPass (columns candidates : List String) : Option String :=
  candidates.findSome? (fun cand =>
    columns.find? (fun c => strHasSub (strLower cand) (strLower c)))

/-- `_pick_col(df, candidates)`: exact pass, then substring pass, then
`None`. -/
def pickCol (columns candidates : List String) : Option String :=
  match exactPass columns candidates with
  | some c => some c
  | none => subPass columns candidates

/-- The candidate list used by `load_hospitalbeds` to resolve the
weekly table's `week` column (data.py line 86). -/
def weekCandidates : List String := ["week", "week_number", "week_index"]

/-- Week-column resolution of the dataset loader. -/
def resolveWeek (columns : List String) : Option String :=
  pickCol columns weekCandidates

/-! ## Derived metrics (`load_hospitalbeds`, data.py lines 171-213)

A cell of a numeric pandas column is an `Option ℚ`, with `none` for
NaN. -/

/-- `series.replace(0, float("nan"))` on one cell. -/
def replaceZeroNaN (x : Option ℚ) : Option ℚ :=
  match x with
  | some v => if v = 0 then none else some v
  | none => none

/-- Pandas element-wise division: NaN in either operand gives NaN. -/
def cellDiv (a b : Option ℚ) : Option ℚ :=
  match a, b with
  | some x, some y => some (x / y)
  | _, _ => none

/-- `series.fillna(0.0)` on one cell. -/
def fillnaZero (x : Option ℚ) : ℚ := x.getD 0

/-- `weekly["refusal_rate"] = (weekly[refusals] / weekly[requests].replace(0, nan)).fillna(0.0)`,
per row. -/
def refusalRate (requests refusals : Option ℚ) : ℚ :=
  fillnaZero (cellDiv refusals (replaceZeroNaN requests))

/-- `weekly["bed_utilization"] = (weekly[admissions] / weekly[beds].replace(0, nan)).fillna(0.0)`,
per row. -/
def bedUtilization (admissions beds : Option ℚ) : ℚ :=
  fillnaZero (cellDiv admissions (replaceZeroNaN beds))

/-- `weekly["patients_per_staff"] = (weekly[admissions] / weekly[available_staff].replace(0, nan)).fillna(0.0)`,
per row. -/
def patientsPerStaff (admissions staff : Option ℚ) : ℚ :=
  fillnaZero (cellDiv admissions (replaceZeroNaN staff))

/-! ## Demand-level binning (`pd.cut`, data.py lines 198-202) -/

/-- The ordered labels of the `demand_level` bins. -/
def demandLabels : List String := ["Low", "Medium", "High", "Very High"]

/-- `pd.cut(x, bins=[-1, m*0.5, m, p75, inf])` on one value: bins are
right-closed, a value at or below the leftmost edge falls outside all
bins (NaN).  Returns the bucket index into `demandLabels`. -/
def demandIdx (m p75 x : ℚ) : Option Nat :=
  if x ≤ -1 then none
  else if x ≤ m * (1 / 2) then some 0
  else if x ≤ m then some 1
  else if x ≤ p75 then some 2
  else some 3

/-- The `demand_level` label of one row. -/
def demandLevel (m p75 x : ℚ) : Option String :=
  (demandIdx m p75 x).map (fun i => demandLabels.getD i "")

/-! ## Staff-availability derivation (data.py lines 125-166) -/

/-- A row of `staff_schedule.csv` after `pd.to_numeric(..., errors="coerce")`
on the `present` column: `none` is NaN (non-numeric input). -/
structure SchedRow where
  week : Int
  service : String
  present : Option ℚ

/-- A row of the weekly table, reduced to its join key. -/
structure WeeklyRow where
  week : Int
  service : String

/-- The coerced `present` value after `.fillna(0)`. -/
def SchedRow.presentNum (r : SchedRow) : ℚ := r.present.getD 0

/-- `sched[sched[present] == 1]`: schedule rows whose coerced `present`
equals 1. -/
def presentRows (sched : List SchedRow) : List SchedRow :=
  sched.filter (fun r => r.presentNum == 1)

/-- The `(week, service)` key of a schedule row. -/
def SchedRow.key (r : SchedRow) : Int × String := (r.week, r.service)

/-- `groupby([wcol, scol]).size()` of the present rows: one entry per
distinct key, carrying the number of its occurrences. -/
def staffCounts (sched : List SchedRow) : List ((Int × String) × Nat) :=
  let keys := (presentRows sched).map SchedRow.key
  keys.dedup.map (fun k => (k, keys.count k))

/-- `weekly.merge(staff_counts, how="left", ...)`: each weekly row is
paired with every matching count row, or with a NaN count when nothing
matches. -/
def leftJoinCounts (weekly : List WeeklyRow) (counts : List ((Int × String) × Nat)) :
    List (WeeklyRow × Option Nat) :=
  weekly.flatMap (fun r =>
    match counts.filter (fun kc => kc.1 == (r.week, r.service)) with
    | [] => [(r, none)]
    | ms => ms.map (fun kc => (r, some kc.2)))

/-- `weekly["available_staff"].fillna(0).astype(int)` applied after the
left join: the full staff derivation of `load_hospitalbeds`. -/
def staffJoin (weekly : List WeeklyRow) (sched : List SchedRow) :
    List (WeeklyRow × Nat) :=
  (leftJoinCounts weekly (staffCounts sched)).map (fun p => (p.1, p.2.getD 0))

/-- The number of schedule rows for `(w, s)` whose `present` value
coerces to 1 — the value the specification promises for
`available_staff`. -/
def countPresent (sched : List SchedRow) (w : Int) (s : String) : Nat :=
  (sched.filter (fun r => r.presentNum == 1 && r.week == w && r.service == s)).length

/-! ## Heatmap pivot aggregation
(`make_heatmap`, panels.py lines 115-125, and `make_heatmap_interactive`,
panels.py lines 973-986): `pivot_table(index=service_col,
columns=week_col, values="value", aggfunc="sum", fill_value=0)`. -/

/-- One data point fed to the pivot: `(service, week, metric value)`. -/
structure HeatRow where
  service : String
  week : Int
  value : ℚ

/-- The `(service, week)` key of a heat row. -/
def HeatRow.key (r : HeatRow) : String × Int := (r.service, r.week)

/-- The pivot table as a keyed list: one entry per observed
`(service, week)` key, whose value is the SUM (`aggfunc="sum"`) of the
metric values of the rows sharing that key. -/
def pivotTable (data : List HeatRow) : List ((String × Int) × ℚ) :=
  let keys := data.map HeatRow.key
  keys.dedup.map (fun k =>
    (k, ((data.filter (fun r => r.key == k)).map HeatRow.value).sum))

/-- Reading cell `(s, w)` of the rendered heatmap: the pivot entry when
the key was observed, `fill_value=0` otherwise. -/
def pivotCell (data : List HeatRow) (s : String) (w : Int) : ℚ :=
  match (pivotTable data).filter (fun kc => kc.1 == (s, w)) with
  | [] => 0
  | kc :: _ => kc.2

/-- Direct sum aggregation of the rows of one `(service, week)` group. -/
def cellSum (data : List HeatRow) (s : String) (w : Int) : ℚ :=
  ((data.filter (fun r => r.key == (s, w))).map HeatRow.value).sum

/-- What the specification's words say a heatmap cell holds: the MEAN
of the metric values of the rows sharing the `(service, week)` key
(0 for an empty cell).  Kept separate from `pivotCell`, which embeds
the source, so the two can be compared. -/
def specCellMean (data : List HeatRow) (s : String) (w : Int) : ℚ :=
  let vs := (data.filter (fun r => r.key == (s, w))).map HeatRow.value
  if vs.length = 0 then 0 else vs.sum / vs.length

/-! ## Interaction state and its transitions (`jbi100_app/main.py`)

The Dash store `global-state` is a JSON dictionary; its fields are
modelled as `Value`s, with `Value.null` playing Python's `None`. -/

/-- The `global-state` store (main.py lines 38-47). -/
structure GlobalState where
  selected_service : Value
  selected_week : Value
  diagnostic_focus : Value
  visible_events : Value
  comparison_mode : Value

/-- The store's initial `data` (main.py lines 40-46). -/
def initState : GlobalState :=
  { selected_service := .null
    selected_week := .null
    diagnostic_focus := .str "refusal_rate"
    visible_events := .list [.str "flu", .str "strike", .str "donation"]
    comparison_mode := .str "single" }

/-- Extracting `(service, week)` from a heatmap click payload, in the
source's evaluation order: `click_data["points"]`, `[0]`, `point["y"]`,
`point["x"]`, `int(...)` (main.py lines 533-535). -/
def extractClick (clickData : Value) : Except PyErr (Value × Int) := do
  let points ← clickData.getItem "points"
  let point ← points.index0
  let service ← point.getItem "y"
  let xv ← point.getItem "x"
  let week ← xv.pyInt
  pure (service, week)

/-- The toggle step of `update_selection` (main.py lines 538-546):
clear both fields when the current selection already equals the clicked
cell, otherwise select it. -/
def applyToggle (s : GlobalState) (service : Value) (week : Int) : GlobalState :=
  if s.selected_service.pyEq service && s.selected_week.pyEq (.int week) then
    { s with selected_service := .null, selected_week := .null }
  else
    { s with selected_service := service, selected_week := .int week }

/-- The `try` body of the heatmap branch of `update_selection`. -/
def clickBody (clickData : Value) (s : GlobalState) : Except PyErr GlobalState :=
  match extractClick clickData with
  | .error e => .error e
  | .ok (service, week) => .ok (applyToggle s service week)

/-- The heatmap branch of `update_selection` (main.py lines 531-552):
skipped entirely when `click_data` is falsy; exceptions in the caught
tuple `(KeyError, IndexError, TypeError)` return the prior state;
other exceptions propagate. -/
def updateSelectionClick (clickData : Value) (s : GlobalState) :
    Except PyErr GlobalState :=
  if clickData.truthy then
    match clickBody clickData s with
    | .ok s' => .ok s'
    | .error e => if e.caught then .ok s else .error e
  else .ok s

/-- The clear-button branch of `update_selection` (main.py lines
525-528). -/
def clearSelection (s : GlobalState) : GlobalState :=
  { s with selected_service := .null, selected_week := .null }

/-- Python `v or []`, as in `state["visible_events"] = visible_events or []`. -/
def pyOrEmptyList (v : Value) : Value :=
  if v.truthy then v else .list []

/-- `update_state_from_controls` (main.py lines 577-583): writes
`diagnostic_focus`, `visible_events` (normalised through `or []`) and
`comparison_mode`, and nothing else. -/
def updateStateFromControls (focus events mode : Value) (s : GlobalState) :
    GlobalState :=
  { s with
    diagnostic_focus := focus
    visible_events := pyOrEmptyList events
    comparison_mode := mode }

/-- The Plotly click payload produced by clicking heatmap cell
`(service S, week W)`: `{"points": [{"x": W, "y": S, ...}]}`. -/
def mkClickPayload (S : String) (W : Int) : Value :=
  .dict [("points", .list [.dict [("x", .int W), ("y", .str S)]])]

/-- Effect of a heatmap click on the stored state: Dash keeps the old
store value when the callback raises, so an uncaught exception leaves
the state unchanged at the store. -/
def applyClick (s : GlobalState) (clickData : Value) : GlobalState :=
  match updateSelectionClick clickData s with
  | .ok s' => s'
  | .error _ => s

/-- One user-input event of the session's state machine: a heatmap
click, a clear-selection button press, or a change of the menu
controls. -/
inductive Step where
  | heatmapClick (clickData : Value) : Step
  | clearSel : Step
  | controls (focus events mode : Value) : Step

/-- Applying one event to the store. -/
def applyStep (s : GlobalState) (t : Step) : GlobalState :=
  match t with
  | .heatmapClick cd => applyClick s cd
  | .clearSel => clearSelection s
  | .controls f e m => updateStateFromControls f e m s

/-- Well-formedness of an event's payload: the `event-visibility`
checklist always delivers `null` or a JSON array, which is the only
constraint the invariant claims rely on. -/
def StepOk : Step → Prop
  | .controls _ e _ => e = .null ∨ ∃ l, e = .list l
  | _ => True

/-- The state after a session that saw the given events, in order. -/
def runSteps (ts : List Step) : GlobalState :=
  ts.foldl applyStep initState

/-- Whether a stored value is a JSON array. -/
def Value.isList : Value → Bool
  | .list _ => true
  | _ => false

/-! ## Service filter (spec-modelled)

Modelled from the spec: `menu.py` lines 130-140 declare the
`service-select` dropdown (options `"__ALL__"` plus each service), but
no callback in the sources consumes it and the `global-state` store has
no `service_filter` field — the transition that decides the
filter-selection claims is missing from `src/`.  Section 4.4 of the
spec defines it: on a change to value `V`, `service_filter ← V`, and if
a drill-down selection exists with `V != "__ALL__"` and
`V != selected_service`, both `selected_service` and `selected_week`
are cleared. -/

/-- Modelled from the spec: the fields of the spec's InteractionState
that the service-filter transition touches. -/
structure SpecFilterState where
  selected_service : Option String
  selected_week : Option Int
  service_filter : String

/-- Modelled from the spec: the `Service-filter changed to value V`
transition of spec section 4.4. -/
def serviceFilterChanged (V : String) (st : SpecFilterState) : SpecFilterState :=
  let clash : Bool :=
    match st.selected_service with
    | some s => V != "__ALL__" && V != s
    | none => false
  if clash then
    { selected_service := none, selected_week := none, service_filter := V }
  else
    { st with service_filter := V }

/-! ## Theorems -/

/-- C1: in every weekly table where the respective input columns are
resolved, the derived metrics are 0 (a real number, not NaN and not a
division error) on every row whose denominator is 0: `refusal_rate` on
rows with `requests == 0`, `bed_utilization` on rows with `beds == 0`,
and `patients_per_staff` on rows with `available_staff == 0` — the
zero denominator is replaced by NaN before dividing and the quotient is
filled with 0.0, and the result type is total, so no row is left NaN. -/
theorem c1_zero_denominator_metrics :
    (∀ refusals, refusalRate (some 0) refusals = 0)
    ∧ (∀ admissions, bedUtilization admissions (some 0) = 0)
    ∧ (∀ admissions, patientsPerStaff admissions (some 0) = 0) := by
  refine ⟨fun r => ?_, fun a => ?_, fun a => ?_⟩
  · cases r <;> simp [refusalRate, fillnaZero, cellDiv, replaceZeroNaN]
  · cases a <;> simp [bedUtilization, fillnaZero, cellDiv, replaceZeroNaN]
  · cases a <;> simp [patientsPerStaff, fillnaZero, cellDiv, replaceZeroNaN]

/-- If some element of the list yields `some`, then `findSome?` returns
`some`, and its value is produced by an element of the list. -/
theorem exists_findSome_of_mem {α β : Type} (f : α → Option β) :
    ∀ l : List α, (∃ a ∈ l, (f a).isSome) →
      ∃ c, l.findSome? f = some c ∧ ∃ x ∈ l, f x = some c := by
  intro l
  induction l with
  | nil => rintro ⟨a, ha, _⟩; cases ha
  | cons hd tl ih =>
      rintro ⟨a, ha, hsome⟩
      cases hfhd : f hd with
      | some b =>
          refine ⟨b, ?_, hd, List.mem_cons_self hd tl, hfhd⟩
          simp [List.findSome?_cons, hfhd]
      | none =>
          have hex : ∃ a ∈ tl, (f a).isSome := by
            rcases List.mem_cons.mp ha with rfl | hmem
            · rw [hfhd] at hsome; simp at hsome
            · exact ⟨a, hmem, hsome⟩
          rcases ih hex with ⟨c, hfind, x, hx, hfx⟩
          refine ⟨c, ?_, x, List.mem_cons_of_mem _ hx, hfx⟩
          simp [List.findSome?_cons, hfhd, hfind]

/-- C2: the resolver's exact pass runs over all candidates before the
substring pass starts: whenever any candidate has a case-insensitive
exact match among the columns, the result is an exact match for some
candidate (never a mere substring match); when the exact pass finds
nothing the result is exactly the substring scan; and in particular for
candidates `["a", "b"]` and columns `["xb", "a"]` the resolver returns
`"a"` even though `"xb"` contains the higher-priority candidate `"b"`
as a substring. -/
theorem c2_resolver_precedence :
    (∀ columns candidates : List String,
        (∃ cand ∈ candidates, (lowerLookup columns (strLower cand)).isSome) →
        ∃ c, pickCol columns candidates = some c
          ∧ ∃ cand ∈ candidates, lowerLookup columns (strLower cand) = some c)
    ∧ (∀ columns candidates : List String,
        exactPass columns candidates = none →
        pickCol columns candidates = subPass columns candidates)
    ∧ pickCol ["xb", "a"] ["a", "b"] = some "a"
    ∧ strHasSub "b" "xb" = true := by
  refine ⟨?_, ?_, by decide, by decide⟩
  · intro columns candidates h
    rcases exists_findSome_of_mem (fun cand => lowerLookup columns (strLower cand))
      candidates h with ⟨c, hfind, hex⟩
    have hexact : exactPass columns candidates = some c := hfind
    exact ⟨c, by simp [pickCol, hexact], hex⟩
  · intro columns candidates h
    simp [pickCol, h]

/-- Witness for C2 at a concrete input: columns `["Week"]`, candidates
`["week"]`. -/
theorem c2_resolver_precedence_witness :
    (∃ cand ∈ (["week"] : List String), (lowerLookup ["Week"] (strLower cand)).isSome)
    ∧ ∃ c, pickCol ["Week"] ["week"] = some c
        ∧ ∃ cand ∈ (["week"] : List String), lowerLookup ["Week"] (strLower cand) = some c := by
  have h : ∃ cand ∈ (["week"] : List String), (lowerLookup ["Week"] (strLower cand)).isSome :=
    ⟨"week", by simp, by decide⟩
  exact ⟨h, c2_resolver_precedence.1 ["Week"] ["week"] h⟩

/-- C9 counterexample: the loader's week candidate list (data.py line
86) is `["week", "week_number", "week_index"]` — it does not contain
`"week_start"` — so for a table whose columns are
`["sick_weeks", "week_start"]` (an earlier column merely containing
`"week"`, next to a column named exactly `"week_start"`) the week field
resolves to `"sick_weeks"` via the substring pass, not to
`"week_start"` via the exact pass as the claim predicts. -/
theorem c9_week_candidates_counterexample :
    resolveWeek ["sick_weeks", "week_start"] = some "sick_weeks"
    ∧ some "sick_weeks" ≠ some "week_start"
    ∧ weekCandidates ≠ ["week", "week_start", "week_number", "week_index"] := by
  refine ⟨by decide, by decide, by decide⟩

/-- C9 (amended): the loader resolves the week field with candidates
`["week", "week_number", "week_index"]` (case-insensitive,
exact-then-substring); `"week_start"` is not a candidate, so a column
named exactly `"week_start"` is only reachable through the substring
pass: with an earlier column containing `"week"` the earlier column
wins, without one `"week_start"` is found by substring, and a column
named exactly `"week"` beats an earlier substring match via the exact
pass. -/
theorem c9_week_candidates_amended :
    weekCandidates = ["week", "week_number", "week_index"]
    ∧ resolveWeek ["sick_weeks", "week_start"] = some "sick_weeks"
    ∧ resolveWeek ["notes", "week_start"] = some "week_start"
    ∧ resolveWeek ["sick_weeks", "week"] = some "week" := by
  refine ⟨rfl, by decide, by decide, by decide⟩

/-- C6: for fixed dataset statistics (median `m` and 75th percentile
`p75` of requests), the `demand_level` binning with right-closed edges
`(-1, m/2], (m/2, m], (m, p75], (p75, ∞)` is monotone: a row with a
larger-or-equal requests value is never assigned a strictly lower
bucket. -/
theorem c6_demand_level_monotone (m p75 x y : ℚ) (hxy : x ≤ y) (i j : Nat)
    (hx : demandIdx m p75 x = some i) (hy : demandIdx m p75 y = some j) :
    i ≤ j := by
  unfold demandIdx at hx hy
  split_ifs at hx hy <;>
    first
      | (exfalso; linarith)
      | (injection hx with hi; injection hy with hj; omega)

/-- Witness for C6 at concrete statistics `m = 4`, `p75 = 6` and
requests values `1 ≤ 5`. -/
theorem c6_demand_level_monotone_witness :
    demandIdx 4 6 1 = some 0 ∧ demandIdx 4 6 5 = some 2 ∧ (0 : Nat) ≤ 2 := by
  have h1 : demandIdx 4 6 1 = some 0 := by norm_num [demandIdx]
  have h2 : demandIdx 4 6 5 = some 2 := by norm_num [demandIdx]
  exact ⟨h1, h2, c6_demand_level_monotone 4 6 1 5 (by norm_num) 0 2 h1 h2⟩

/-- Filtering a duplicate-free list for equality with `k` yields `[k]`
when `k` occurs and `[]` otherwise. -/
theorem nodup_filter_eq {α : Type} [BEq α] [LawfulBEq α] :
    ∀ l : List α, l.Nodup → ∀ k : α,
      l.filter (fun x => x == k) = if k ∈ l then [k] else [] := by
  intro l
  induction l with
  | nil => intro _ k; simp
  | cons a t ih =>
      intro hnd k
      rcases List.nodup_cons.mp hnd with ⟨ha, ht⟩
      by_cases hak : a = k
      · subst hak
        simp [List.filter_cons, ih ht, ha]
      · simp [List.filter_cons, hak, ih ht, Ne.symm hak]

/-- The multiplicity of a `(week, service)` key among the present
schedule rows equals the direct count of schedule rows for that key
whose `present` value coerces to 1. -/
theorem count_key_eq (sched : List SchedRow) (w : Int) (s : String) :
    ((presentRows sched).map SchedRow.key).count (w, s) = countPresent sched w s := by
  induction sched with
  | nil => rfl
  | cons r rs ih =>
      unfold presentRows countPresent at *
      by_cases hp : r.presentNum = 1
      · by_cases hw : r.week = w
        · by_cases hs : r.service = s
          · simp [List.filter_cons, hp, hw, hs, SchedRow.key, List.count_cons, ih]
          · simp [List.filter_cons, hp, hw, hs, SchedRow.key, List.count_cons, ih,
              Prod.ext_iff]
        · simp [List.filter_cons, hp, hw, SchedRow.key, List.count_cons, ih,
            Prod.ext_iff]
      · simp [List.filter_cons, hp, ih]

/-- The group-by result holds exactly one entry for an observed key —
carrying the direct count — and none for an unobserved one. -/
theorem staffCounts_filter (sched : List SchedRow) (w : Int) (s : String) :
    (staffCounts sched).filter (fun kc => kc.1 == (w, s)) =
      if (w, s) ∈ (presentRows sched).map SchedRow.key
      then [((w, s), countPresent sched w s)] else [] := by
  unfold staffCounts
  rw [List.filter_map]
  have hcomp : ((fun kc : (Int × String) × Nat => kc.1 == (w, s)) ∘
      (fun k => (k, ((presentRows sched).map SchedRow.key).count k)))
      = fun k => k == (w, s) := rfl
  rw [hcomp, nodup_filter_eq _ ((presentRows sched).map SchedRow.key).nodup_dedup (w, s)]
  by_cases hmem : (w, s) ∈ (presentRows sched).map SchedRow.key
  · simp [List.mem_dedup, hmem, count_key_eq]
  · simp [List.mem_dedup, hmem]

/-- C7: whenever the staff-schedule table resolves its `week`,
`service` and `present` columns, the staff derivation maps each weekly
row, in order and without dropping or duplicating any (so the left join
leaves the row count unchanged), to that row paired with a defined
natural-number `available_staff` equal to the count of schedule rows
for its `(week, service)` key whose `present` value coerces to 1 —
0 when no schedule row matches, never null. -/
theorem c7_staff_join_complete (weekly : List WeeklyRow) (sched : List SchedRow) :
    staffJoin weekly sched =
      weekly.map (fun r => (r, countPresent sched r.week r.service)) := by
  induction weekly with
  | nil => rfl
  | cons r rs ih =>
      unfold staffJoin leftJoinCounts at *
      rw [List.flatMap_cons, List.map_append, ih, staffCounts_filter]
      by_cases hmem : (r.week, r.service) ∈ (presentRows sched).map SchedRow.key
      · simp [hmem]
      · have hzero : countPresent sched r.week r.service = 0 := by
          rw [← count_key_eq]
          exact List.count_eq_zero.mpr hmem
        simp [hmem, hzero]

/-- The pivot table holds exactly one entry for an observed
`(service, week)` key — carrying the group sum — and none for an
unobserved one. -/
theorem pivotTable_filter (data : List HeatRow) (s : String) (w : Int) :
    (pivotTable data).filter (fun kc => kc.1 == (s, w)) =
      if (s, w) ∈ data.map HeatRow.key
      then [((s, w), cellSum data s w)] else [] := by
  unfold pivotTable
  rw [List.filter_map]
  have hcomp : ((fun kc : (String × Int) × ℚ => kc.1 == (s, w)) ∘
      (fun k => (k, ((data.filter (fun r => r.key == k)).map HeatRow.value).sum)))
      = fun k => k == (s, w) := rfl
  rw [hcomp, nodup_filter_eq _ (data.map HeatRow.key).nodup_dedup (s, w)]
  by_cases hmem : (s, w) ∈ data.map HeatRow.key
  · simp [List.mem_dedup, hmem, cellSum]
  · simp [List.mem_dedup, hmem]

/-- C8 (amended): a heatmap cell holds the SUM (`aggfunc="sum"`) of the
metric values of the filtered rows sharing its `(service, week)` key,
and `(service, week)` combinations with no row in the filtered data
show `fill_value=0`. -/
theorem c8_heatmap_sum_aggregation :
    (∀ (data : List HeatRow) (s : String) (w : Int),
        pivotCell data s w = cellSum data s w)
    ∧ (∀ (data : List HeatRow) (s : String) (w : Int),
        data.filter (fun r => r.key == (s, w)) = [] → pivotCell data s w = 0) := by
  have main : ∀ (data : List HeatRow) (s : String) (w : Int),
      pivotCell data s w = cellSum data s w := by
    intro data s w
    unfold pivotCell
    rw [pivotTable_filter]
    by_cases hmem : (s, w) ∈ data.map HeatRow.key
    · simp [hmem]
    · have hnil : data.filter (fun r => r.key == (s, w)) = [] := by
        refine List.filter_eq_nil_iff.mpr ?_
        intro a ha hkey
        exact hmem (List.mem_map.mpr ⟨a, ha, by simpa using hkey⟩)
      simp [hmem, cellSum, hnil]
  refine ⟨main, fun data s w hempty => ?_⟩
  rw [main, cellSum, hempty]
  rfl

/-- C8 counterexample: two rows for the same `(service, week)` cell
with values 1 and 3 render as 4 (their sum), not 2 (their mean as the
claim states) — the pivot aggregation is `sum`, not `mean`. -/
theorem c8_mean_aggregation_counterexample :
    pivotCell [⟨"ICU", 1, 1⟩, ⟨"ICU", 1, 3⟩] "ICU" 1 = 4
    ∧ specCellMean [⟨"ICU", 1, 1⟩, ⟨"ICU", 1, 3⟩] "ICU" 1 = 2
    ∧ pivotCell [⟨"ICU", 1, 1⟩, ⟨"ICU", 1, 3⟩] "ICU" 1
        ≠ specCellMean [⟨"ICU", 1, 1⟩, ⟨"ICU", 1, 3⟩] "ICU" 1 := by
  have h1 : pivotCell [⟨"ICU", 1, 1⟩, ⟨"ICU", 1, 3⟩] "ICU" 1 = 4 := by
    norm_num [pivotCell, pivotTable, cellSum, HeatRow.key, List.dedup]
  have h2 : specCellMean [⟨"ICU", 1, 1⟩, ⟨"ICU", 1, 3⟩] "ICU" 1 = 2 := by
    norm_num [specCellMean, HeatRow.key]
  refine ⟨h1, h2, ?_⟩
  rw [h1, h2]
  norm_num

/-- Python `==` is reflexive on strings. -/
theorem pyEq_str_self (a : String) : Value.pyEq (.str a) (.str a) = true := by
  simp [Value.pyEq]

/-- Python `==` is reflexive on integers. -/
theorem pyEq_int_self (n : Int) : Value.pyEq (.int n) (.int n) = true := by
  simp [Value.pyEq]

/-- A well-formed heatmap click reduces to the toggle step: extraction
of the payload built from cell `(S, W)` always succeeds. -/
theorem applyClick_payload (s : GlobalState) (S : String) (W : Int) :
    applyClick s (mkClickPayload S W) = applyToggle s (.str S) W := rfl

/-- C3 counterexample: starting from a state whose selection already is
`("ICU", 5)`, clicking cell `("ICU", 5)` twice leaves the selection at
`("ICU", 5)` — the first click toggles it off, the second re-selects it
— so the claim's unconditional `null`/`null` outcome (equal to the
pre-click values) fails. -/
theorem c3_double_click_counterexample :
    (applyClick (applyClick
        { initState with selected_service := .str "ICU", selected_week := .int 5 }
        (mkClickPayload "ICU" 5)) (mkClickPayload "ICU" 5)).selected_service
      = Value.str "ICU"
    ∧ (applyClick (applyClick
        { initState with selected_service := .str "ICU", selected_week := .int 5 }
        (mkClickPayload "ICU" 5)) (mkClickPayload "ICU" 5)).selected_week
      = Value.int 5
    ∧ Value.str "ICU" ≠ Value.null := by
  refine ⟨rfl, rfl, fun h => Value.noConfusion h⟩

/-- C3 (amended): a heatmap click on cell `(S, W)` clears both
selection fields when the current selection already equals `(S, W)` and
otherwise sets them to `(S, W)`; hence clicking the same cell twice
from a state whose selection does NOT already equal `(S, W)` leaves
both fields null — which are exactly the pre-click values when the
pre-click selection was null. -/
theorem c3_click_toggle_amended (s : GlobalState) (S : String) (W : Int) :
    (applyClick s (mkClickPayload S W) =
      if s.selected_service.pyEq (.str S) && s.selected_week.pyEq (.int W)
      then { s with selected_service := .null, selected_week := .null }
      else { s with selected_service := .str S, selected_week := .int W })
    ∧ ((s.selected_service.pyEq (.str S) && s.selected_week.pyEq (.int W)) = false →
      (applyClick (applyClick s (mkClickPayload S W)) (mkClickPayload S W)).selected_service
          = Value.null
      ∧ (applyClick (applyClick s (mkClickPayload S W)) (mkClickPayload S W)).selected_week
          = Value.null) := by
  constructor
  · rw [applyClick_payload]
    rfl
  · intro h
    have hset : applyClick s (mkClickPayload S W) =
        { s with selected_service := .str S, selected_week := .int W } := by
      rw [applyClick_payload]
      unfold applyToggle
      rw [h]
      rfl
    rw [hset, applyClick_payload]
    unfold applyToggle
    simp [pyEq_str_self, pyEq_int_self]

/-- Witness for C3 at the initial state (empty selection) and cell
`("ICU", 5)`. -/
theorem c3_click_toggle_amended_witness :
    (applyClick (applyClick initState (mkClickPayload "ICU" 5)) (mkClickPayload "ICU" 5)).selected_service
        = Value.null
    ∧ (applyClick (applyClick initState (mkClickPayload "ICU" 5)) (mkClickPayload "ICU" 5)).selected_week
        = Value.null :=
  (c3_click_toggle_amended initState "ICU" 5).2 rfl

/-- C5 counterexample: a click payload whose `x` coordinate is the
string `"oops"` makes `int(point["x"])` raise `ValueError`, which is
not in the handler's `except (KeyError, IndexError, TypeError)` tuple:
`update_selection` propagates the error instead of returning the prior
state. -/
theorem c5_uncaught_valueerror_counterexample :
    updateSelectionClick
        (.dict [("points", .list [.dict [("x", .str "oops"), ("y", .str "ICU")]])])
        initState
      = .error PyErr.valueError
    ∧ (Except.error PyErr.valueError
        ≠ (Except.ok initState : Except PyErr GlobalState)) := by
  refine ⟨rfl, fun h => Except.noConfusion h⟩

/-- C5 (amended): a malformed click payload whose extraction fails with
`KeyError`, `IndexError` or `TypeError` (missing points list, empty
points, missing `x` or `y`, non-subscriptable components, coordinates
whose type `int()` rejects with `TypeError`) is a no-op returning the
prior state; an extraction failure outside the caught tuple — the
`ValueError` of a non-numeric string coordinate — propagates to the
caller. -/
theorem c5_malformed_click_amended (s : GlobalState) (cd : Value) (e : PyErr)
    (h : extractClick cd = .error e) :
    (e.caught = true → updateSelectionClick cd s = .ok s)
    ∧ (e.caught = false → cd.truthy = true → updateSelectionClick cd s = .error e) := by
  constructor
  · intro hc
    by_cases ht : cd.truthy <;>
      simp [updateSelectionClick, clickBody, h, hc, ht]
  · intro hc ht
    simp [updateSelectionClick, clickBody, h, hc, ht]

/-- Witness for C5: the payload `{"points": null}` is truthy but its
extraction dies with `TypeError` at `points[0]`, so the handler
returns the prior state. -/
theorem c5_malformed_click_amended_witness :
    updateSelectionClick (.dict [("points", .null)]) initState = .ok initState :=
  (c5_malformed_click_amended initState (.dict [("points", .null)]) .typeError rfl).1 rfl

/-- C4: on a service-filter change to `V`, the filter is stored, and an
existing drill-down selection is cleared exactly when `V` is neither
`"__ALL__"` nor the currently selected service; choosing `"__ALL__"` or
the selected service leaves the selection intact. -/
theorem c4_service_filter_consistency (st : SpecFilterState) (V s : String)
    (hsel : st.selected_service = some s) :
    ((V ≠ "__ALL__" ∧ V ≠ s) →
      serviceFilterChanged V st =
        { selected_service := none, selected_week := none, service_filter := V })
    ∧ ((V = "__ALL__" ∨ V = s) →
      (serviceFilterChanged V st).selected_service = st.selected_service
      ∧ (serviceFilterChanged V st).selected_week = st.selected_week
      ∧ (serviceFilterChanged V st).service_filter = V) := by
  constructor
  · rintro ⟨h1, h2⟩
    simp [serviceFilterChanged, hsel, h1, h2]
  · rintro (rfl | rfl) <;> simp [serviceFilterChanged, hsel]

/-- Witness for C4: selection `("ICU", week 5)` with filter switched to
`"ER"` is cleared. -/
theorem c4_service_filter_consistency_witness :
    serviceFilterChanged "ER" ⟨some "ICU", some 5, "__ALL__"⟩ =
      { selected_service := none, selected_week := none, service_filter := "ER" } :=
  (c4_service_filter_consistency ⟨some "ICU", some 5, "__ALL__"⟩ "ER" "ICU" rfl).1
    ⟨by decide, by decide⟩

/-- The toggle step never writes `visible_events`. -/
theorem applyToggle_visible (s : GlobalState) (y : Value) (w : Int) :
    (applyToggle s y w).visible_events = s.visible_events := by
  unfold applyToggle
  split <;> rfl

/-- A heatmap click never writes `visible_events`, whatever the payload
and however extraction fares. -/
theorem applyClick_visible (s : GlobalState) (cd : Value) :
    (applyClick s cd).visible_events = s.visible_events := by
  unfold applyClick updateSelectionClick clickBody
  by_cases ht : cd.truthy
  · cases hex : extractClick cd with
    | error e =>
        by_cases hc : e.caught <;> simp [ht, hex, hc]
    | ok p =>
        cases p with
        | mk y w => simp [ht, hex, applyToggle_visible]
  · simp [ht]

/-- C10: after session creation and after every sequence of state
transitions whose control payloads are well-formed (the checklist
delivers null or an array), the `visible_events` field of the stored
state is a JSON array — possibly empty, never null: the controls
transition normalises a null payload to `[]` via `or []` before
storing, the initial store holds a non-empty array, and neither the
click nor the clear transition writes the field. -/
theorem c10_visible_events_never_null (ts : List Step)
    (h : ∀ t ∈ ts, StepOk t) :
    (runSteps ts).visible_events.isList = true := by
  suffices H : ∀ (us : List Step) (s : GlobalState), (∀ t ∈ us, StepOk t) →
      s.visible_events.isList = true →
      (us.foldl applyStep s).visible_events.isList = true by
    exact H ts initState h rfl
  intro us
  induction us with
  | nil => intro s _ hs; exact hs
  | cons t us ih =>
      intro s hok hs
      refine ih (applyStep s t) (fun u hu => hok u (List.mem_cons_of_mem _ hu)) ?_
      have ht := hok t (List.mem_cons_self _ _)
      cases t with
      | heatmapClick cd =>
          show (applyClick s cd).visible_events.isList = true
          rw [applyClick_visible]
          exact hs
      | clearSel => exact hs
      | controls f e m =>
          rcases ht with he | ⟨l, he⟩ <;> subst he
          · rfl
          · show (pyOrEmptyList (.list l)).isList = true
            unfold pyOrEmptyList
            split <;> rfl

/-- Witness for C10: a session that changes the controls with a null
checklist payload and then clears the selection still holds an array in
`visible_events`. -/
theorem c10_visible_events_never_null_witness :
    (runSteps [Step.controls (.str "bed_utilization") .null (.str "single"),
      Step.clearSel]).visible_events.isList = true := by
  refine c10_visible_events_never_null _ ?_
  intro t ht
  rcases List.mem_cons.mp ht with rfl | ht2
  · exact Or.inl rfl
  · rcases List.mem_cons.mp ht2 with rfl | h3
    · trivial
    · cases h3
